import Mathlib

/-!
Verification development for the Hardware Fingerprint Engine of
`qoomon/amazon-ssm-agent` (Windows fingerprint path).

The Go sources embedded here are:
  * `agent/managedInstances/fingerprint/hardwareInfo_windows.go`
    (`waitForService`, `currentHwHash`, `getWMIInterface`, the per-category
    hash helpers and the generic `getWMIObject`),
  * `agent/platform/wmi.go` (the WMI record types, `GetSingleWMIObject`),
  * `agent/platform/platform_windows.go` (`isWindowsServer2025OrLater`,
    `isPlatformWindowsServer2025OrLater`).

External collaborators (the Windows service manager, the WMI query engine,
command execution and the host-identity helpers) are modelled as explicit
inputs: a `Collaborators` record carries the outcome every collaborator call
would produce, and the embedded functions consume those outcomes exactly the
way the Go control flow does.

The serialization/digest pipeline used by the source (`encoding/gob` with a
fresh encoder, `crypto/md5`, `encoding/base64` std encoding) is embedded as
executable Lean functions over byte lists (`List Nat`, each entry < 256).
-/

/-! ## Bytes and UTF-8 -/

/-- UTF-8 encoding of a single character, as byte values.  Mirrors how a Go
`string` stores its text, so that byte lengths and byte values agree with
Go's `len`/indexing on the strings appearing in the source. -/
def utf8Char (c : Char) : List Nat :=
  let n := c.toNat
  if n < 0x80 then [n]
  else if n < 0x800 then [0xC0 ||| (n >>> 6), 0x80 ||| (n &&& 0x3F)]
  else if n < 0x10000 then
    [0xE0 ||| (n >>> 12), 0x80 ||| ((n >>> 6) &&& 0x3F), 0x80 ||| (n &&& 0x3F)]
  else
    [0xF0 ||| (n >>> 18), 0x80 ||| ((n >>> 12) &&& 0x3F),
     0x80 ||| ((n >>> 6) &&& 0x3F), 0x80 ||| (n &&& 0x3F)]

/-- The bytes of a Lean string, UTF-8 encoded (= the bytes of the
corresponding Go string). -/
def strBytes (s : String) : List Nat :=
  (s.data.map utf8Char).flatten

/-! ## base64 (Go `encoding/base64` `StdEncoding`) -/

/-- The standard base64 alphabet used by Go's `base64.StdEncoding`. -/
def b64Alphabet : List Char :=
  "ABCDEFGHIJKLMNOPQRSTUVWXYZabcdefghijklmnopqrstuvwxyz0123456789+/".data

/-- Character for a 6-bit group. -/
def b64Char (n : Nat) : Char := b64Alphabet.getD n 'A'

/-- base64 encoding of a byte list, three input bytes at a time, with `=`
padding, exactly as `base64.StdEncoding.EncodeToString`. -/
def base64Chunks : List Nat → List Char
  | [] => []
  | [b1] => [b64Char (b1 >>> 2), b64Char ((b1 &&& 3) <<< 4), '=', '=']
  | [b1, b2] =>
      [b64Char (b1 >>> 2), b64Char (((b1 &&& 3) <<< 4) ||| (b2 >>> 4)),
       b64Char ((b2 &&& 15) <<< 2), '=']
  | b1 :: b2 :: b3 :: rest =>
      b64Char (b1 >>> 2) ::
      b64Char (((b1 &&& 3) <<< 4) ||| (b2 >>> 4)) ::
      b64Char (((b2 &&& 15) <<< 2) ||| (b3 >>> 6)) ::
      b64Char (b3 &&& 63) :: base64Chunks rest

/-- `base64.StdEncoding.EncodeToString`. -/
def base64Encode (bs : List Nat) : String := String.mk (base64Chunks bs)

/-! ## MD5 (Go `crypto/md5`, RFC 1321) -/

/-- Truncated 32-bit addition. -/
def add32 (x y : Nat) : Nat := (x + y) % 4294967296

/-- 32-bit left rotation. -/
def rotl32 (x s : Nat) : Nat :=
  (((x <<< s) ||| (x >>> (32 - s)))) % 4294967296

/-- The 64 MD5 sine-derived constants (RFC 1321 table T). -/
def md5K : List Nat :=
  [0xd76aa478, 0xe8c7b756, 0x242070db, 0xc1bdceee,
   0xf57c0faf, 0x4787c62a, 0xa8304613, 0xfd469501,
   0x698098d8, 0x8b44f7af, 0xffff5bb1, 0x895cd7be,
   0x6b901122, 0xfd987193, 0xa679438e, 0x49b40821,
   0xf61e2562, 0xc040b340, 0x265e5a51, 0xe9b6c7aa,
   0xd62f105d, 0x02441453, 0xd8a1e681, 0xe7d3fbc8,
   0x21e1cde6, 0xc33707d6, 0xf4d50d87, 0x455a14ed,
   0xa9e3e905, 0xfcefa3f8, 0x676f02d9, 0x8d2a4c8a,
   0xfffa3942, 0x8771f681, 0x6d9d6122, 0xfde5380c,
   0xa4beea44, 0x4bdecfa9, 0xf6bb4b60, 0xbebfbc70,
   0x289b7ec6, 0xeaa127fa, 0xd4ef3085, 0x04881d05,
   0xd9d4d039, 0xe6db99e5, 0x1fa27cf8, 0xc4ac5665,
   0xf4292244, 0x432aff97, 0xab9423a7, 0xfc93a039,
   0x655b59c3, 0x8f0ccc92, 0xffeff47d, 0x85845dd1,
   0x6fa87e4f, 0xfe2ce6e0, 0xa3014314, 0x4e0811a1,
   0xf7537e82, 0xbd3af235, 0x2ad7d2bb, 0xeb86d391]

/-- The 64 MD5 per-round left-rotation amounts. -/
def md5S : List Nat :=
  [7, 12, 17, 22, 7, 12, 17, 22, 7, 12, 17, 22, 7, 12, 17, 22,
   5, 9, 14, 20, 5, 9, 14, 20, 5, 9, 14, 20, 5, 9, 14, 20,
   4, 11, 16, 23, 4, 11, 16, 23, 4, 11, 16, 23, 4, 11, 16, 23,
   6, 10, 15, 21, 6, 10, 15, 21, 6, 10, 15, 21, 6, 10, 15, 21]

/-- The MD5 round function (F, G, H, I depending on the step index). -/
def md5F (i b c d : Nat) : Nat :=
  if i < 16 then (b &&& c) ||| ((b ^^^ 0xFFFFFFFF) &&& d)
  else if i < 32 then (d &&& b) ||| ((d ^^^ 0xFFFFFFFF) &&& c)
  else if i < 48 then b ^^^ c ^^^ d
  else c ^^^ (b ||| (d ^^^ 0xFFFFFFFF))

/-- The message-word index used at step `i`. -/
def md5G (i : Nat) : Nat :=
  if i < 16 then i
  else if i < 32 then (5 * i + 1) % 16
  else if i < 48 then (3 * i + 5) % 16
  else (7 * i) % 16

/-- One MD5 step: rotates the (a, b, c, d) state. -/
def md5Step (M : List Nat) (st : Nat × Nat × Nat × Nat) (i : Nat) :
    Nat × Nat × Nat × Nat :=
  let a := st.1
  let b := st.2.1
  let c := st.2.2.1
  let d := st.2.2.2
  let f := md5F i b c d
  let sum := (a + f + md5K.getD i 0 + M.getD (md5G i) 0) % 4294967296
  (d, add32 b (rotl32 sum (md5S.getD i 0)), b, c)

/-- Little-endian 32-bit words of a 64-byte block. -/
def leWords : List Nat → List Nat
  | b0 :: b1 :: b2 :: b3 :: rest =>
      (b0 + 256 * (b1 + 256 * (b2 + 256 * b3))) :: leWords rest
  | _ => []

/-- Compress one 64-byte block into the running state. -/
def md5Block (st : Nat × Nat × Nat × Nat) (block : List Nat) :
    Nat × Nat × Nat × Nat :=
  let M := leWords block
  let r := (List.range 64).foldl (md5Step M) st
  (add32 st.1 r.1, add32 st.2.1 r.2.1, add32 st.2.2.1 r.2.2.1,
   add32 st.2.2.2 r.2.2.2)

/-- Little-endian bytes of a 32-bit word. -/
def le32 (w : Nat) : List Nat :=
  [w % 256, (w / 256) % 256, (w / 65536) % 256, (w / 16777216) % 256]

/-- Little-endian bytes of a 64-bit length field. -/
def le64 (w : Nat) : List Nat :=
  [w % 256, (w / 256) % 256, (w / 65536) % 256, (w / 16777216) % 256,
   (w / 4294967296) % 256, (w / 1099511627776) % 256,
   (w / 281474976710656) % 256, (w / 72057594037927936) % 256]

/-- MD5 padding: a 0x80 byte, zeros to 56 mod 64, then the bit length as a
little-endian 64-bit value. -/
def md5Pad (msg : List Nat) : List Nat :=
  msg ++ 0x80 :: List.replicate ((64 + 56 - (msg.length + 1) % 64) % 64) 0
      ++ le64 (8 * msg.length)

/-- Split into 64-byte blocks (fuel-based so the kernel can evaluate it). -/
def chunk64Fuel : Nat → List Nat → List (List Nat)
  | 0, _ => []
  | _ + 1, [] => []
  | fuel + 1, b :: bs => ((b :: bs).take 64) :: chunk64Fuel fuel ((b :: bs).drop 64)

/-- Split a byte list into 64-byte blocks. -/
def chunks64 (l : List Nat) : List (List Nat) := chunk64Fuel l.length l

/-- `crypto/md5` `md5.Sum`: the 16 digest bytes of a message. -/
def md5Sum (msg : List Nat) : List Nat :=
  let st := (chunks64 (md5Pad msg)).foldl md5Block
    (0x67452301, 0xefcdab89, 0x98badcfe, 0x10325476)
  le32 st.1 ++ le32 st.2.1 ++ le32 st.2.2.1 ++ le32 st.2.2.2

/-- The digest-then-encode pipeline both backends of the source share:
`base64.StdEncoding.EncodeToString(md5.Sum(bytes)[:])`. -/
def digestEncode (bs : List Nat) : String := base64Encode (md5Sum bs)

/-! ## Go `encoding/gob` wire format (fixed-schema fragment)

`getWMIObject` serializes each WMI record with a **fresh** `gob.Encoder`
(`gob.NewEncoder(&b).Encode(wmiObject)`), so every encoding is a
self-contained stream: one type-definition message (the first user type id,
65) followed by one value message.  The functions below implement that wire
format for the flat struct schemas of `agent/platform/wmi.go` — unsigned
integer encoding, signed zig-zag-style encoding, length-prefixed strings,
delta-encoded struct fields with zero-valued fields omitted, and
length-prefixed messages — exactly as `encoding/gob` documents and emits
them. -/

/-- Minimal big-endian byte string of a positive number (fuel-based). -/
def beBytesFuel : Nat → Nat → List Nat
  | 0, _ => []
  | _ + 1, 0 => []
  | fuel + 1, u => beBytesFuel fuel (u / 256) ++ [u % 256]

/-- Minimal big-endian byte string of a positive number. -/
def beBytes (u : Nat) : List Nat := beBytesFuel u u

/-- gob unsigned integer: one byte if `< 128`, otherwise a negated byte
count followed by the big-endian bytes. -/
def gobEncodeUint (u : Nat) : List Nat :=
  if u < 128 then [u] else (256 - (beBytes u).length) :: beBytes u

/-- gob signed integer: low bit is the sign, remaining bits the complemented
(negative) or plain (non-negative) magnitude. -/
def gobEncodeInt (i : Int) : List Nat :=
  if i < 0 then gobEncodeUint ((-i - 1).toNat * 2 + 1)
  else gobEncodeUint (i.toNat * 2)

/-- gob string: unsigned byte length, then the raw bytes. -/
def gobEncodeString (s : String) : List Nat :=
  gobEncodeUint (strBytes s).length ++ strBytes s

/-- Delta-encoded struct body: each present (non-zero) field is sent as the
delta from the previous field number followed by its payload; a zero delta
terminates the struct.  `idx` is the current field index and `last1` is one
plus the previously sent field number (initially 0, matching gob's start
value of -1). -/
def gobStructBodyAux : Nat → Nat → List (Option (List Nat)) → List Nat
  | _, _, [] => [0]
  | idx, last1, none :: rest => gobStructBodyAux (idx + 1) last1 rest
  | idx, last1, some p :: rest =>
      gobEncodeUint (idx + 1 - last1) ++ p ++ gobStructBodyAux (idx + 1) (idx + 1) rest

/-- Struct body from the per-field payloads (`none` = zero-valued field,
omitted from the wire). -/
def gobStructBody (fs : List (Option (List Nat))) : List Nat :=
  gobStructBodyAux 0 0 fs

/-- A string field: omitted when empty. -/
def strField (s : String) : Option (List Nat) :=
  if s = "" then none else some (gobEncodeString s)

/-- An unsigned integer field: omitted when zero. -/
def uintField (n : Nat) : Option (List Nat) :=
  if n = 0 then none else some (gobEncodeUint n)

/-- A gob message: unsigned byte count, then the body. -/
def gobMessage (body : List Nat) : List Nat :=
  gobEncodeUint body.length ++ body

/-- gob's predefined type id for `string`. -/
def gobTString : Int := 6

/-- gob's predefined type id for unsigned integers. -/
def gobTUint : Int := 3

/-- One entry of a struct type descriptor's field list: a `fieldType`
value (`Name`, `Id`). -/
def gobFieldDesc (f : String × Int) : List Nat :=
  gobStructBody [some (gobEncodeString f.1), some (gobEncodeInt f.2)]

/-- Body of the type-definition message for a flat struct type: the new
type id (65, sent negated), then the `wireType` value whose only present
field is `StructT` (field index 2), holding the `CommonType` (name and id)
and the field descriptors. -/
def gobTypeDefBody (name : String) (fields : List (String × Int)) : List Nat :=
  gobEncodeInt (-65) ++
    gobStructBody [none, none, some (gobStructBody
      [some (gobStructBody [some (gobEncodeString name), some (gobEncodeInt 65)]),
       some (gobEncodeUint fields.length ++ (fields.map gobFieldDesc).flatten)])]

/-- Full gob stream for one value of a flat struct type, as produced by a
fresh encoder: the type-definition message, then the value message (type id
65 followed by the delta-encoded struct body). -/
def gobStream (name : String) (fields : List (String × Int))
    (valueBody : List Nat) : List Nat :=
  gobMessage (gobTypeDefBody name fields) ++ gobMessage (gobEncodeInt 65 ++ valueBody)

/-! ## WMI record types (`agent/platform/wmi.go`) -/

structure Win32_ComputerSystemProduct where
  UUID : String
deriving DecidableEq

structure Win32_Processor where
  Caption : String
  DeviceID : String
  Manufacturer : String
  MaxClockSpeed : Nat
  Name : String
  SocketDesignation : String
deriving DecidableEq

structure Win32_PhysicalMemory where
  Capacity : Nat
  DeviceLocator : String
  MemoryType : Nat
  Name : String
  Tag : String
  TotalWidth : Nat
deriving DecidableEq

structure Win32_BIOS where
  Manufacturer : String
  Name : String
  SerialNumber : String
  SMBIOSBIOSVersion : String
  Version : String
deriving DecidableEq

structure Win32_ComputerSystem where
  DNSHostName : String
  Domain : String
  Manufacturer : String
  Model : String
  Name : String
  PrimaryOwnerName : String
  TotalPhysicalMemory : Nat
deriving DecidableEq

structure Win32_DiskDrive where
  Caption : String
  DeviceID : String
  Model : String
  Partitions : Nat
  Size : Nat
deriving DecidableEq

/-- The zero value of `Win32_ComputerSystemProduct`. -/
def cspZero : Win32_ComputerSystemProduct := ⟨""⟩

/-- The zero value of `Win32_Processor`. -/
def processorZero : Win32_Processor := ⟨"", "", "", 0, "", ""⟩

/-- The zero value of `Win32_PhysicalMemory`. -/
def memoryZero : Win32_PhysicalMemory := ⟨0, "", 0, "", "", 0⟩

/-- The zero value of `Win32_BIOS`. -/
def biosZero : Win32_BIOS := ⟨"", "", "", "", ""⟩

/-- The zero value of `Win32_ComputerSystem`. -/
def csZero : Win32_ComputerSystem := ⟨"", "", "", "", "", "", 0⟩

/-- The zero value of `Win32_DiskDrive`. -/
def diskZero : Win32_DiskDrive := ⟨"", "", "", 0, 0⟩

/-- gob stream of a `Win32_ComputerSystemProduct` value. -/
def gobEncodeCSP (r : Win32_ComputerSystemProduct) : List Nat :=
  gobStream "Win32_ComputerSystemProduct" [("UUID", gobTString)]
    (gobStructBody [strField r.UUID])

/-- gob stream of a `Win32_Processor` value. -/
def gobEncodeProcessor (r : Win32_Processor) : List Nat :=
  gobStream "Win32_Processor"
    [("Caption", gobTString), ("DeviceID", gobTString),
     ("Manufacturer", gobTString), ("MaxClockSpeed", gobTUint),
     ("Name", gobTString), ("SocketDesignation", gobTString)]
    (gobStructBody
      [strField r.Caption, strField r.DeviceID, strField r.Manufacturer,
       uintField r.MaxClockSpeed, strField r.Name, strField r.SocketDesignation])

/-- gob stream of a `Win32_PhysicalMemory` value. -/
def gobEncodeMemory (r : Win32_PhysicalMemory) : List Nat :=
  gobStream "Win32_PhysicalMemory"
    [("Capacity", gobTUint), ("DeviceLocator", gobTString),
     ("MemoryType", gobTUint), ("Name", gobTString),
     ("Tag", gobTString), ("TotalWidth", gobTUint)]
    (gobStructBody
      [uintField r.Capacity, strField r.DeviceLocator, uintField r.MemoryType,
       strField r.Name, strField r.Tag, uintField r.TotalWidth])

/-- gob stream of a `Win32_BIOS` value. -/
def gobEncodeBIOS (r : Win32_BIOS) : List Nat :=
  gobStream "Win32_BIOS"
    [("Manufacturer", gobTString), ("Name", gobTString),
     ("SerialNumber", gobTString), ("SMBIOSBIOSVersion", gobTString),
     ("Version", gobTString)]
    (gobStructBody
      [strField r.Manufacturer, strField r.Name, strField r.SerialNumber,
       strField r.SMBIOSBIOSVersion, strField r.Version])

/-- gob stream of a `Win32_ComputerSystem` value. -/
def gobEncodeCS (r : Win32_ComputerSystem) : List Nat :=
  gobStream "Win32_ComputerSystem"
    [("DNSHostName", gobTString), ("Domain", gobTString),
     ("Manufacturer", gobTString), ("Model", gobTString),
     ("Name", gobTString), ("PrimaryOwnerName", gobTString),
     ("TotalPhysicalMemory", gobTUint)]
    (gobStructBody
      [strField r.DNSHostName, strField r.Domain, strField r.Manufacturer,
       strField r.Model, strField r.Name, strField r.PrimaryOwnerName,
       uintField r.TotalPhysicalMemory])

/-- gob stream of a `Win32_DiskDrive` value. -/
def gobEncodeDisk (r : Win32_DiskDrive) : List Nat :=
  gobStream "Win32_DiskDrive"
    [("Caption", gobTString), ("DeviceID", gobTString), ("Model", gobTString),
     ("Partitions", gobTUint), ("Size", gobTUint)]
    (gobStructBody
      [strField r.Caption, strField r.DeviceID, strField r.Model,
       uintField r.Partitions, uintField r.Size])

/-! ## `agent/platform/wmi.go` -/

/-- Go `error` values are modelled as strings; `nil` is `Option.none` where
an error travels beside a value, and `Except.error` where it decides a
branch. -/
abbrev GoErr : Type := String

/-- `GetSingleWMIObject`: from the outcome of `GetWMIData` (the external WMI
query), return the first record and a nil error; on a query error, or on a
successful query with zero records, return the zero value of the record type
together with the query's error (which is nil in the zero-record case).
Mirrors `if wmiData, err := GetWMIData(wmiObject); err != nil || len(wmiData) == 0
\x7b return wmiObject, err \x7d`. -/
def GetSingleWMIObject {T : Type} (zero : T) (wmiData : Except GoErr (List T)) :
    T × Option GoErr :=
  match wmiData with
  | .error e => (zero, some e)
  | .ok l =>
    match l with
    | [] => (zero, none)
    | x :: _ => (x, none)

/-! ## `agent/platform/platform_windows.go` -/

/-- `WindowsServer2025Version` constant. -/
def WindowsServer2025Version : String := "10.0.26100"

/-- Split a character list at the dots. -/
def splitDotsAux : List Char → List Char → List (List Char)
  | [], acc => [acc.reverse]
  | c :: rest, acc =>
      if c = '.' then acc.reverse :: splitDotsAux rest []
      else splitDotsAux rest (c :: acc)

/-- The dot-separated components of a version string. -/
def splitDots (s : String) : List (List Char) := splitDotsAux s.data []

/-- Parse a non-empty all-digit component as a number. -/
def parseDigitsAux : List Char → Nat → Option Nat
  | [], acc => some acc
  | c :: rest, acc =>
      if '0' ≤ c ∧ c ≤ '9' then parseDigitsAux rest (acc * 10 + (c.toNat - '0'.toNat))
      else none

/-- Parse one version component. -/
def parseComponent : List Char → Option Nat
  | [] => none
  | c :: rest => parseDigitsAux (c :: rest) 0

/-- Parse a dotted version string into its numeric components. -/
def parseVersion (s : String) : Option (List Nat) :=
  (splitDots s).mapM parseComponent

/-- Whether every remaining component is zero. -/
def allZero : List Nat → Bool
  | [] => true
  | x :: xs => if 0 < x then false else allZero xs

/-- Numeric comparison of component lists, the shorter side implicitly
zero-padded. -/
def cmpParts : List Nat → List Nat → Int
  | [], ys => if allZero ys then 0 else -1
  | x :: xs, [] => if allZero (x :: xs) then 0 else 1
  | x :: xs, y :: ys =>
      if x < y then -1 else if y < x then 1 else cmpParts xs ys

/-- Modelled from the spec: `versionutil.VersionCompare` (package
`agent/versionutil`, not present under `src/`).  Per the spec, the threshold
comparison "uses a dotted-version ordering comparison (not
string/lexicographic comparison) since version components vary in digit
count": both strings are parsed into numeric dot-separated components and
compared componentwise; a string that fails to parse yields an error. -/
def VersionCompare (a b : String) : Except GoErr Int :=
  match parseVersion a, parseVersion b with
  | some xs, some ys => .ok (cmpParts xs ys)
  | _, _ => .error "invalid version string"

/-- `isWindowsServer2025OrLater`: compares the platform version against
`WindowsServer2025Version` and returns `result >= 0`; a comparison error is
propagated. -/
def isWindowsServer2025OrLater (platformVersion : String) : Except GoErr Bool :=
  match VersionCompare platformVersion WindowsServer2025Version with
  | .error e => .error e
  | .ok r => .ok (decide (0 ≤ r))

/-- `isPlatformWindowsServer2025OrLater`: obtains the platform version (here
the collaborator-supplied outcome) and, on success, delegates to
`isWindowsServer2025OrLater`; a version-detection error is propagated. -/
def isPlatformWindowsServer2025OrLater (platformVersion : Except GoErr String) :
    Except GoErr Bool :=
  match platformVersion with
  | .error e => .error e
  | .ok v => isWindowsServer2025OrLater v

/-! ## `agent/managedInstances/fingerprint/hardwareInfo_windows.go` -/

/-- The `WMIInterface` tag: `WMIC` (command-output backend) or `WQL`
(structured-query backend). -/
inductive WMIInterface
  | wmic
  | wql
deriving DecidableEq

/-- `svc.State` values of `golang.org/x/sys/windows/svc` that
`service.Query` can report. -/
inductive ServiceState
  | stopped
  | startPending
  | stopPending
  | running
  | continuePending
  | pausePending
  | paused
deriving DecidableEq

/-- The status record returned by `service.Query`. -/
structure SvcStatus where
  State : ServiceState

/-- `hardwareID` constant (`"uuid"`). -/
def hardwareID : String := "uuid"

/-- Modelled from the spec: the `ipAddressID` key constant lives in the
shared `fingerprint/hardwareInfo.go`, which is not under `src/`; per the
spec's fixed key vocabulary it is `"ip-address"`. -/
def ipAddressID : String := "ip-address"

/-- `serviceRetry` constant: 5 attempts. -/
def serviceRetry : Nat := 5

/-- `serviceRetryInterval` constant: 15 seconds between attempts. -/
def serviceRetryInterval : Nat := 15

/-- The error returned when the retry budget is exhausted. -/
def wmiWaitTimeoutMsg : GoErr := "Failed to wait for WMI to get into Running status"

/-- The test `err == nil && status.State == svc.Running` applied to one
status-query outcome. -/
def svcRunning (r : Except GoErr SvcStatus) : Bool :=
  match r with
  | .error _ => false
  | .ok st => decide (st.State = ServiceState.running)

/-- Instrumented outcome of the `waitForService` loop: the returned error
value plus how many status queries were issued and how many seconds were
spent sleeping. -/
structure WaitOutcome where
  result : Except GoErr Unit
  attempts : Nat
  sleptSeconds : Nat

/-- The body of `waitForService`'s `for attempt := 1; attempt <= serviceRetry`
loop: `fuel` is the number of attempts still allowed, `attempt` the current
attempt number.  Each iteration queries the status once; a running state
returns nil immediately, anything else (including a query error, which is
only logged) sleeps `serviceRetryInterval` seconds and retries; an exhausted
budget returns the timeout error. -/
def waitLoop (query : Nat → Except GoErr SvcStatus) (attempt : Nat) :
    Nat → WaitOutcome
  | 0 => ⟨.error wmiWaitTimeoutMsg, 0, 0⟩
  | fuel + 1 =>
    if svcRunning (query attempt) then ⟨.ok (), 1, 0⟩
    else
      let rest := waitLoop query (attempt + 1) fuel
      ⟨rest.result, rest.attempts + 1, rest.sleptSeconds + serviceRetryInterval⟩

/-- `waitForService`: runs the retry loop from attempt 1 with a budget of
`serviceRetry` attempts.  The status-query collaborator is given as the
per-attempt outcome function. -/
def waitForService (query : Nat → Except GoErr SvcStatus) : WaitOutcome :=
  waitLoop query 1 serviceRetry

/-- Modelled from the spec: `commandOutputHash` lives in the shared
`fingerprint/hardwareInfo.go`, which is not under `src/`.  Per the spec's
command-output backend contract (§4.3): execute the fixed command, capture
its raw standard-output bytes, apply the 128-bit digest directly over those
bytes and encode it printably (the same MD5-then-base64 pipeline as
`getWMIObject`); on execution failure return an error and an empty digest.
The command-execution collaborator's outcome (stdout bytes or error) is the
argument. -/
def commandOutputHash (stdout : Except GoErr (List Nat)) :
    String × List Nat × Option GoErr :=
  match stdout with
  | .error e => ("", [], some e)
  | .ok out => (digestEncode out, out, none)

/-- `getWMIObject`: fetch a single WMI record via `GetSingleWMIObject`; on
success, gob-encode the record with a fresh encoder, MD5 it and base64 the
digest; on a query error return an empty digest and the error.  (The gob
`Encode` call cannot fail on these flat struct schemas, so the
`EncodingFailed` branch is unreachable in the model.)  The external query's
outcome is the `query` argument; `enc` is the gob stream of the record type
and `zero` its zero value. -/
def getWMIObject {T : Type} (enc : T → List Nat) (zero : T)
    (query : Except GoErr (List T)) : String × T × Option GoErr :=
  match GetSingleWMIObject zero query with
  | (obj, some e) => ("", obj, some e)
  | (obj, none) => (digestEncode (enc obj), obj, none)

/-- All collaborator outcomes one `currentHwHash` run can consume: the
service-manager connection, the service handle, the per-attempt status
queries, platform-version detection, the raw `wmic.exe` output per category,
the WMI record list per category, and the host-identity lookups. -/
structure Collaborators where
  connect : Except GoErr Unit
  openSvc : Except GoErr Unit
  svcQuery : Nat → Except GoErr SvcStatus
  platformVersion : Except GoErr String
  wmicUuid : Except GoErr (List Nat)
  wmicCpu : Except GoErr (List Nat)
  wmicMemory : Except GoErr (List Nat)
  wmicBios : Except GoErr (List Nat)
  wmicSystem : Except GoErr (List Nat)
  wmicDisk : Except GoErr (List Nat)
  wqlCSP : Except GoErr (List Win32_ComputerSystemProduct)
  wqlProcessor : Except GoErr (List Win32_Processor)
  wqlMemory : Except GoErr (List Win32_PhysicalMemory)
  wqlBios : Except GoErr (List Win32_BIOS)
  wqlSystem : Except GoErr (List Win32_ComputerSystem)
  wqlDisk : Except GoErr (List Win32_DiskDrive)
  hostname : Except GoErr String
  primaryIp : Except GoErr String
  macAddr : Except GoErr String

/-- `getWMIInterface`: WQL exactly when the platform is detected as Windows
Server 2025 or later; WMIC on an older version or on any detection error. -/
def getWMIInterface (platformVersion : Except GoErr String) : WMIInterface :=
  match isPlatformWindowsServer2025OrLater platformVersion with
  | .error _ => .wmic
  | .ok true => .wql
  | .ok false => .wmic

/-- `csproductUuid`: the UUID category, through whichever backend is
active. -/
def csproductUuid (iface : WMIInterface) (c : Collaborators) :
    String × Option GoErr :=
  match iface with
  | .wmic => let r := commandOutputHash c.wmicUuid; (r.1, r.2.2)
  | .wql => let r := getWMIObject gobEncodeCSP cspZero c.wqlCSP; (r.1, r.2.2)

/-- `processorInfoHash`. -/
def processorInfoHash (iface : WMIInterface) (c : Collaborators) :
    String × Option GoErr :=
  match iface with
  | .wmic => let r := commandOutputHash c.wmicCpu; (r.1, r.2.2)
  | .wql => let r := getWMIObject gobEncodeProcessor processorZero c.wqlProcessor; (r.1, r.2.2)

/-- `memoryInfoHash`. -/
def memoryInfoHash (iface : WMIInterface) (c : Collaborators) :
    String × Option GoErr :=
  match iface with
  | .wmic => let r := commandOutputHash c.wmicMemory; (r.1, r.2.2)
  | .wql => let r := getWMIObject gobEncodeMemory memoryZero c.wqlMemory; (r.1, r.2.2)

/-- `biosInfoHash`. -/
def biosInfoHash (iface : WMIInterface) (c : Collaborators) :
    String × Option GoErr :=
  match iface with
  | .wmic => let r := commandOutputHash c.wmicBios; (r.1, r.2.2)
  | .wql => let r := getWMIObject gobEncodeBIOS biosZero c.wqlBios; (r.1, r.2.2)

/-- `systemInfoHash`. -/
def systemInfoHash (iface : WMIInterface) (c : Collaborators) :
    String × Option GoErr :=
  match iface with
  | .wmic => let r := commandOutputHash c.wmicSystem; (r.1, r.2.2)
  | .wql => let r := getWMIObject gobEncodeCS csZero c.wqlSystem; (r.1, r.2.2)

/-- `diskInfoHash`. -/
def diskInfoHash (iface : WMIInterface) (c : Collaborators) :
    String × Option GoErr :=
  match iface with
  | .wmic => let r := commandOutputHash c.wmicDisk; (r.1, r.2.2)
  | .wql => let r := getWMIObject gobEncodeDisk diskZero c.wqlDisk; (r.1, r.2.2)

/-- Modelled from the spec: `hostnameInfo` lives in the shared
`fingerprint/hardwareInfo.go`, not under `src/`.  Per the spec's
host-identity contract, it returns the collaborator's string on success and
an empty string together with the error on failure. -/
def hostnameInfo (r : Except GoErr String) : String × Option GoErr :=
  match r with
  | .error e => ("", some e)
  | .ok s => (s, none)

/-- Modelled from the spec: `primaryIpInfo`, as `hostnameInfo`. -/
def primaryIpInfo (r : Except GoErr String) : String × Option GoErr :=
  match r with
  | .error e => ("", some e)
  | .ok s => (s, none)

/-- Modelled from the spec: `macAddrInfo`, as `hostnameInfo`. -/
def macAddrInfo (r : Except GoErr String) : String × Option GoErr :=
  match r with
  | .error e => ("", some e)
  | .ok s => (s, none)

/-- The six hardware categories of the fingerprint. -/
inductive HwCategory
  | uuid
  | processor
  | memory
  | bios
  | system
  | disk
deriving DecidableEq

/-- One recorded collaborator invocation of the collection phase. -/
inductive TraceEntry
  | catQuery (cat : HwCategory)
  | hostnameLookup
  | ipLookup
  | macLookup

/-- The map key of a hardware category. -/
def catKey : HwCategory → String
  | .uuid => hardwareID
  | .processor => "processor-hash"
  | .memory => "memory-hash"
  | .bios => "bios-hash"
  | .system => "system-hash"
  | .disk => "disk-info"

/-- Result of one `currentHwHash` run: the hardware-hash map (a list of
key/value pairs with pairwise-distinct keys, standing for the Go
`map[string]string` in assignment order), the returned error value, and the
collaborator invocations performed after the readiness gate. -/
structure HwResult where
  map : List (String × String)
  err : Option GoErr
  trace : List TraceEntry

/-- Go map lookup on the key/value list. -/
def mapGet : List (String × String) → String → Option String
  | [], _ => none
  | (k, v) :: rest, key => if k = key then some v else mapGet rest key

/-- The nine fixed keys, in the assignment order of `currentHwHash`. -/
def nineKeys : List String :=
  [hardwareID, "processor-hash", "memory-hash", "bios-hash", "system-hash",
   "hostname-info", ipAddressID, "macaddr-info", "disk-info"]

/-- `currentHwHash`: connect to the service manager, open the WMI service
and wait for it to run — each failure returns the empty map and that error
with no further collaborator use.  Once the service is ready, select the WMI
interface once and fill all nine keys, one per category or host-identity
fact, each error being dropped (`hardwareHash[k], _ = ...`); the final
return is the populated map and a nil error. -/
def currentHwHash (c : Collaborators) : HwResult :=
  match c.connect with
  | .error e => ⟨[], some e, []⟩
  | .ok _ =>
    match c.openSvc with
    | .error e => ⟨[], some e, []⟩
    | .ok _ =>
      match (waitForService c.svcQuery).result with
      | .error e => ⟨[], some e, []⟩
      | .ok _ =>
        let iface := getWMIInterface c.platformVersion
        ⟨[(hardwareID, (csproductUuid iface c).1),
          ("processor-hash", (processorInfoHash iface c).1),
          ("memory-hash", (memoryInfoHash iface c).1),
          ("bios-hash", (biosInfoHash iface c).1),
          ("system-hash", (systemInfoHash iface c).1),
          ("hostname-info", (hostnameInfo c.hostname).1),
          (ipAddressID, (primaryIpInfo c.primaryIp).1),
          ("macaddr-info", (macAddrInfo c.macAddr).1),
          ("disk-info", (diskInfoHash iface c).1)],
         none,
         [.catQuery .uuid, .catQuery .processor, .catQuery .memory,
          .catQuery .bios, .catQuery .system, .hostnameLookup, .ipLookup,
          .macLookup, .catQuery .disk]⟩

/-! ## Derived predicates used by the claims -/

/-- The readiness gate (connect, open service, wait for running) succeeded. -/
def readinessOk (c : Collaborators) : Prop :=
  c.connect = .ok () ∧ c.openSvc = .ok () ∧
    (waitForService c.svcQuery).result = .ok ()

/-- The readiness gate's own result: the first failure among connect, open
and the running wait, in program order. -/
def readinessResult (c : Collaborators) : Except GoErr Unit :=
  match c.connect with
  | .error e => .error e
  | .ok _ =>
    match c.openSvc with
    | .error e => .error e
    | .ok _ => (waitForService c.svcQuery).result

/-- Whether an outcome is an error. -/
def isErr {α : Type} (r : Except GoErr α) : Bool :=
  match r with
  | .error _ => true
  | .ok _ => false

/-- Whether a host-identity outcome succeeded with a non-empty string. -/
def okNonempty (r : Except GoErr String) : Bool :=
  match r with
  | .error _ => false
  | .ok s => decide (s ≠ "")

/-- Whether the active backend's query collaborator failed for a category. -/
def catQueryFailed (c : Collaborators) (iface : WMIInterface) :
    HwCategory → Bool
  | .uuid => match iface with | .wmic => isErr c.wmicUuid | .wql => isErr c.wqlCSP
  | .processor => match iface with | .wmic => isErr c.wmicCpu | .wql => isErr c.wqlProcessor
  | .memory => match iface with | .wmic => isErr c.wmicMemory | .wql => isErr c.wqlMemory
  | .bios => match iface with | .wmic => isErr c.wmicBios | .wql => isErr c.wqlBios
  | .system => match iface with | .wmic => isErr c.wmicSystem | .wql => isErr c.wqlSystem
  | .disk => match iface with | .wmic => isErr c.wmicDisk | .wql => isErr c.wqlDisk

/-- The encoded value a category contributes to the map. -/
def catValue (c : Collaborators) (iface : WMIInterface) : HwCategory → String
  | .uuid => (csproductUuid iface c).1
  | .processor => (processorInfoHash iface c).1
  | .memory => (memoryInfoHash iface c).1
  | .bios => (biosInfoHash iface c).1
  | .system => (systemInfoHash iface c).1
  | .disk => (diskInfoHash iface c).1

/-! ## Helper lemmas -/

/-- The shared pipeline always emits a 24-character string (16 digest bytes,
base64). -/
theorem digestEncode_length (bs : List Nat) : (digestEncode bs).length = 24 := rfl

/-- The shared pipeline never emits the empty string. -/
theorem digestEncode_ne_empty (bs : List Nat) : digestEncode bs ≠ "" := by
  intro h
  have h24 : (digestEncode bs).length = 24 := digestEncode_length bs
  rw [h] at h24
  exact absurd h24 (by decide)

/-- The command-output backend stores the empty digest exactly when command
execution failed. -/
theorem commandOutputHash_empty_iff (r : Except GoErr (List Nat)) :
    (commandOutputHash r).1 = "" ↔ isErr r = true := by
  cases r with
  | error e => simp [commandOutputHash, isErr]
  | ok out => simp [commandOutputHash, isErr, digestEncode_ne_empty]

/-- The structured-query backend stores the empty digest exactly when the
WMI query failed (zero records are hashed, not treated as failure). -/
theorem getWMIObject_empty_iff {T : Type} (enc : T → List Nat) (zero : T)
    (q : Except GoErr (List T)) :
    (getWMIObject enc zero q).1 = "" ↔ isErr q = true := by
  cases q with
  | error e => simp [getWMIObject, GetSingleWMIObject, isErr]
  | ok l =>
    cases l with
    | nil => simp [getWMIObject, GetSingleWMIObject, isErr, digestEncode_ne_empty]
    | cons x xs => simp [getWMIObject, GetSingleWMIObject, isErr, digestEncode_ne_empty]

/-- A category's map value is empty exactly when the active backend's query
collaborator failed for that category. -/
theorem catValue_empty_iff (c : Collaborators) (iface : WMIInterface)
    (cat : HwCategory) :
    (catValue c iface cat = "" ↔ catQueryFailed c iface cat = true) := by
  cases cat <;> cases iface <;>
    simp only [catValue, catQueryFailed, csproductUuid, processorInfoHash,
      memoryInfoHash, biosInfoHash, systemInfoHash, diskInfoHash] <;>
    first
      | exact commandOutputHash_empty_iff _
      | exact getWMIObject_empty_iff _ _ _

/-! ## `waitForService` loop lemmas -/

/-- The loop returns nil exactly when some attempt in the remaining window
observes the running state. -/
theorem waitLoop_ok_iff (q : Nat → Except GoErr SvcStatus) :
    ∀ (n s : Nat), (waitLoop q s n).result = .ok () ↔
      ∃ a, s ≤ a ∧ a < s + n ∧ svcRunning (q a) = true := by
  intro n
  induction n with
  | zero =>
    intro s
    constructor
    · intro h
      exact absurd h (by simp [waitLoop])
    · rintro ⟨a, h1, h2, _⟩
      omega
  | succ n ih =>
    intro s
    by_cases h : svcRunning (q s) = true
    · constructor
      · intro _
        exact ⟨s, le_refl s, by omega, h⟩
      · intro _
        show (waitLoop q s (n + 1)).result = Except.ok ()
        simp [waitLoop, h]
    · have hw : (waitLoop q s (n + 1)).result = (waitLoop q (s + 1) n).result := by
        simp [waitLoop, h]
      rw [hw, ih (s + 1)]
      constructor
      · rintro ⟨a, h1, h2, h3⟩
        exact ⟨a, by omega, by omega, h3⟩
      · rintro ⟨a, h1, h2, h3⟩
        have hne : s ≠ a := by
          intro he
          rw [← he] at h3
          exact h h3
        exact ⟨a, by omega, by omega, h3⟩

/-- The loop never issues more queries than its remaining budget. -/
theorem waitLoop_attempts_le (q : Nat → Except GoErr SvcStatus) :
    ∀ (n s : Nat), (waitLoop q s n).attempts ≤ n := by
  intro n
  induction n with
  | zero =>
    intro s
    exact Nat.le.refl
  | succ n ih =>
    intro s
    by_cases h : svcRunning (q s) = true
    · have hw : (waitLoop q s (n + 1)).attempts = 1 := by
        simp [waitLoop, h]
      omega
    · have hw : (waitLoop q s (n + 1)).attempts = (waitLoop q (s + 1) n).attempts + 1 := by
        simp [waitLoop, h]
      have := ih (s + 1)
      omega

/-- When every attempt in the remaining window fails, the loop returns the
timeout error after using its whole budget and sleeping after every
attempt. -/
theorem waitLoop_all_fail (q : Nat → Except GoErr SvcStatus) :
    ∀ (n s : Nat), (∀ a, s ≤ a → a < s + n → svcRunning (q a) = false) →
      waitLoop q s n = ⟨.error wmiWaitTimeoutMsg, n, n * serviceRetryInterval⟩ := by
  intro n
  induction n with
  | zero =>
    intro s _
    rfl
  | succ n ih =>
    intro s hfail
    have hs : svcRunning (q s) = false := hfail s (le_refl s) (by omega)
    have hrest := ih (s + 1) (fun a h1 h2 => hfail a (by omega) (by omega))
    have hw : waitLoop q s (n + 1) =
        ⟨(waitLoop q (s + 1) n).result, (waitLoop q (s + 1) n).attempts + 1,
          (waitLoop q (s + 1) n).sleptSeconds + serviceRetryInterval⟩ := by
      simp [waitLoop, hs]
    rw [hw, hrest]
    have : (n + 1) * serviceRetryInterval = n * serviceRetryInterval + serviceRetryInterval := by
      ring
    rw [this]

/-- When attempt `a` is the first to observe the running state, the loop
returns nil there, after `a - s + 1` queries and `a - s` sleeps. -/
theorem waitLoop_first_running (q : Nat → Except GoErr SvcStatus) :
    ∀ (n s a : Nat), s ≤ a → a < s + n → svcRunning (q a) = true →
      (∀ b, s ≤ b → b < a → svcRunning (q b) = false) →
      waitLoop q s n = ⟨.ok (), a - s + 1, (a - s) * serviceRetryInterval⟩ := by
  intro n
  induction n with
  | zero =>
    intro s a h1 h2
    omega
  | succ n ih =>
    intro s a h1 h2 hrun hmin
    by_cases he : s = a
    · subst he
      have : waitLoop q s (n + 1) = ⟨.ok (), 1, 0⟩ := by
        simp [waitLoop, hrun]
      rw [this]
      have h0 : s - s = 0 := by omega
      rw [h0]
      norm_num
    · have hs : svcRunning (q s) = false := hmin s (le_refl s) (by omega)
      have hrest := ih (s + 1) a (by omega) (by omega) hrun
        (fun b hb1 hb2 => hmin b (by omega) hb2)
      have hw : waitLoop q s (n + 1) =
          ⟨(waitLoop q (s + 1) n).result, (waitLoop q (s + 1) n).attempts + 1,
            (waitLoop q (s + 1) n).sleptSeconds + serviceRetryInterval⟩ := by
        simp [waitLoop, hs]
      rw [hw, hrest]
      have e1 : a - (s + 1) + 1 + 1 = a - s + 1 := by omega
      have e2 : (a - (s + 1)) * serviceRetryInterval + serviceRetryInterval
          = (a - s) * serviceRetryInterval := by
        have e3 : a - s = (a - (s + 1)) + 1 := by omega
        rw [e3]
        ring
      rw [e1, e2]

/-- The returned error value is exactly the readiness gate's failure, if
any. -/
theorem currentHwHash_err_eq (c : Collaborators) :
    (currentHwHash c).err =
      (match readinessResult c with
        | .ok _ => none
        | .error e => some e) := by
  unfold currentHwHash readinessResult
  rcases c.connect with e | u
  · rfl
  · rcases c.openSvc with e | u
    · rfl
    · cases hq : (waitForService c.svcQuery).result with
      | error e => simp [hq]
      | ok u => simp [hq]

/-! ## Witness inputs -/

/-- A collaborator assignment whose readiness gate succeeds at the first
status query while every category query, version detection and host-identity
lookup fails. -/
def cAllFail : Collaborators :=
  ⟨.ok (), .ok (), fun _ => .ok ⟨.running⟩, .error "no version",
   .error "exec failed", .error "exec failed", .error "exec failed",
   .error "exec failed", .error "exec failed", .error "exec failed",
   .error "query failed", .error "query failed", .error "query failed",
   .error "query failed", .error "query failed", .error "query failed",
   .error "hostname failed", .error "ip failed", .error "mac failed"⟩

/-- A collaborator assignment whose WMI service never reaches the running
state, while every other collaborator would succeed. -/
def cTimeout : Collaborators :=
  ⟨.ok (), .ok (), fun _ => .ok ⟨.stopped⟩, .ok "10.0.26100",
   .ok [85, 85, 73, 68], .ok [1], .ok [2], .ok [3], .ok [4], .ok [5],
   .ok [⟨"4C4C4544"⟩], .ok [⟨"cpu", "CPU0", "intel", 2400, "Xeon", "s0"⟩],
   .ok [⟨17179869184, "DIMM 0", 26, "Physical Memory", "Tag 0", 64⟩],
   .ok [⟨"Xen", "revision 4.11", "ec2abc", "4.11.amazon", "4.11.amazon"⟩],
   .ok [⟨"host1", "example.com", "Xen", "HVM domU", "HOST1", "EC2", 17179869184⟩],
   .ok [⟨"disk0", "\\\\.\\PHYSICALDRIVE0", "AWS PVDISK", 1, 107374182400⟩],
   .ok "host1", .ok "10.0.0.5", .ok "aa:bb:cc:dd:ee:ff"⟩

/-- The always-running status-query collaborator. -/
def qAlwaysRunning : Nat → Except GoErr SvcStatus := fun _ => .ok ⟨.running⟩

/-! ## Claims -/

/-- C2: for every outcome of the per-category queries and host-identity
lookups — any mix of successes and failures — a run whose readiness gate
succeeds returns a map holding exactly the nine fixed keys `uuid`,
`processor-hash`, `memory-hash`, `bios-hash`, `system-hash`,
`hostname-info`, `ip-address`, `macaddr-info`, `disk-info`, never more,
never fewer (values possibly empty strings). -/
theorem claim_C2_total_key_invariant (c : Collaborators) (h : readinessOk c) :
    ((currentHwHash c).map).map Prod.fst = nineKeys ∧ nineKeys.Nodup := by
  obtain ⟨h1, h2, h3⟩ := h
  constructor
  · simp [currentHwHash, h1, h2, h3, nineKeys]
  · decide

/-- Witness for C2: readiness succeeds and every query fails, and the map
still carries exactly the nine keys. -/
theorem claim_C2_witness :
    readinessOk cAllFail ∧
      ((currentHwHash cAllFail).map).map Prod.fst = nineKeys ∧ nineKeys.Nodup :=
  ⟨⟨rfl, rfl, rfl⟩, claim_C2_total_key_invariant cAllFail ⟨rfl, rfl, rfl⟩⟩

/-- C3: whenever the readiness gate succeeds the computation returns a nil
error — even if every category query and host-identity lookup failed — and
any error it does return is exactly the readiness gate's failure. -/
theorem claim_C3_nil_error_contract (c : Collaborators) :
    (readinessOk c → (currentHwHash c).err = none) ∧
    (∀ e, readinessResult c = .error e → (currentHwHash c).err = some e) := by
  constructor
  · rintro ⟨h1, h2, h3⟩
    have hr : readinessResult c = .ok () := by
      simp [readinessResult, h1, h2, h3]
    rw [currentHwHash_err_eq, hr]
  · intro e he
    rw [currentHwHash_err_eq, he]

/-- Witness for C3: with every query and lookup failing but readiness
succeeding, the returned error is nil. -/
theorem claim_C3_witness :
    readinessOk cAllFail ∧ (currentHwHash cAllFail).err = none :=
  ⟨⟨rfl, rfl, rfl⟩, (claim_C3_nil_error_contract cAllFail).1 ⟨rfl, rfl, rfl⟩⟩

/-- C5: the readiness waiter issues at most 5 status queries; it returns nil
exactly when some attempt (1-based, up to 5) observes the running state — a
status-query error merely counts as "not yet running"; when attempt `a` is
the first to observe running it stops there with `a` queries and `a - 1`
15-second sleeps; and when no attempt observes running it returns the
descriptive timeout error after 5 queries and 5 sleeps (75 seconds). -/
theorem claim_C5_readiness_waiter (q : Nat → Except GoErr SvcStatus) :
    (waitForService q).attempts ≤ serviceRetry ∧
    ((waitForService q).result = .ok () ↔
      ∃ a, 1 ≤ a ∧ a ≤ serviceRetry ∧ svcRunning (q a) = true) ∧
    (∀ a, 1 ≤ a → a ≤ serviceRetry → svcRunning (q a) = true →
      (∀ b, 1 ≤ b → b < a → svcRunning (q b) = false) →
      waitForService q = ⟨.ok (), a, (a - 1) * serviceRetryInterval⟩) ∧
    ((∀ a, 1 ≤ a → a ≤ serviceRetry → svcRunning (q a) = false) →
      waitForService q =
        ⟨.error wmiWaitTimeoutMsg, serviceRetry,
          serviceRetry * serviceRetryInterval⟩) := by
  refine ⟨waitLoop_attempts_le q serviceRetry 1, ?_, ?_, ?_⟩
  · rw [waitForService, waitLoop_ok_iff]
    constructor
    · rintro ⟨a, h1, h2, h3⟩
      exact ⟨a, h1, by omega, h3⟩
    · rintro ⟨a, h1, h2, h3⟩
      exact ⟨a, h1, by omega, h3⟩
  · intro a h1 h2 hrun hmin
    have hfr := waitLoop_first_running q serviceRetry 1 a h1 (by omega) hrun
      (fun b hb1 hb2 => hmin b hb1 hb2)
    have e1 : a - 1 + 1 = a := by omega
    rw [waitForService, hfr, e1]
  · intro hfail
    have hall := waitLoop_all_fail q serviceRetry 1
      (fun a ha hb => hfail a ha (by omega))
    rw [waitForService, hall]

/-- Witness for C5: a service that is already running is detected by the
first query, with no sleep. -/
theorem claim_C5_witness :
    waitForService qAlwaysRunning = ⟨.ok (), 1, 0⟩ :=
  (claim_C5_readiness_waiter qAlwaysRunning).2.2.1 1 (le_refl 1) (by decide)
    rfl (fun b hb1 hb2 => absurd hb2 (by omega))

/-- C6: when connect and open succeed but the WMI service never reports
running across the retry budget, the computation aborts with the timeout
error, its map is empty, and no category query or host-identity lookup is
performed (empty collaborator trace). -/
theorem claim_C6_timeout_aborts (c : Collaborators)
    (h1 : c.connect = .ok ()) (h2 : c.openSvc = .ok ())
    (h3 : ∀ a, 1 ≤ a → a ≤ serviceRetry → svcRunning (c.svcQuery a) = false) :
    (currentHwHash c).err = some wmiWaitTimeoutMsg ∧
      (currentHwHash c).map = [] ∧ (currentHwHash c).trace = [] := by
  have hw : (waitForService c.svcQuery).result = .error wmiWaitTimeoutMsg := by
    have hall := waitLoop_all_fail c.svcQuery serviceRetry 1
      (fun a ha hb => h3 a ha (by omega))
    rw [waitForService, hall]
  refine ⟨?_, ?_, ?_⟩ <;> simp [currentHwHash, h1, h2, hw]

/-- Witness for C6: a service stuck in the stopped state forces the timeout
abort with an empty map and an empty collaborator trace. -/
theorem claim_C6_witness :
    (∀ a, 1 ≤ a → a ≤ serviceRetry → svcRunning (cTimeout.svcQuery a) = false) ∧
      ((currentHwHash cTimeout).err = some wmiWaitTimeoutMsg ∧
        (currentHwHash cTimeout).map = [] ∧ (currentHwHash cTimeout).trace = []) :=
  ⟨fun _ _ _ => rfl,
   claim_C6_timeout_aborts cTimeout rfl rfl (fun _ _ _ => rfl)⟩

/-- C7: the strategy selector returns the structured-query backend (WQL)
exactly when the detected version compares at or after 10.0.26100 under
dotted-version ordering; 10.0.26100 and later versions select WQL,
10.0.19041 selects WMIC, and any version-detection or comparison failure
falls back to WMIC. -/
theorem claim_C7_version_threshold :
    (∀ v r, VersionCompare v WindowsServer2025Version = .ok r →
      (getWMIInterface (.ok v) = .wql ↔ 0 ≤ r)) ∧
    (∀ v e, VersionCompare v WindowsServer2025Version = .error e →
      getWMIInterface (.ok v) = .wmic) ∧
    (∀ e, getWMIInterface (.error e) = .wmic) ∧
    getWMIInterface (.ok "10.0.26100") = .wql ∧
    getWMIInterface (.ok "10.0.26101") = .wql ∧
    getWMIInterface (.ok "10.1.0") = .wql ∧
    getWMIInterface (.ok "10.0.19041") = .wmic := by
  refine ⟨?_, ?_, ?_, by decide, by decide, by decide, by decide⟩
  · intro v r h
    by_cases hr : (0 : Int) ≤ r
    · simp [getWMIInterface, isPlatformWindowsServer2025OrLater,
        isWindowsServer2025OrLater, h, hr]
    · simp [getWMIInterface, isPlatformWindowsServer2025OrLater,
        isWindowsServer2025OrLater, h, hr]
  · intro v e h
    simp [getWMIInterface, isPlatformWindowsServer2025OrLater,
      isWindowsServer2025OrLater, h]
  · intro e
    rfl

/-- Witness for C7: the threshold version itself compares equal (result 0)
and selects WQL. -/
theorem claim_C7_witness :
    VersionCompare "10.0.26100" WindowsServer2025Version = .ok 0 ∧
      (getWMIInterface (.ok "10.0.26100") = .wql ↔ (0 : Int) ≤ 0) :=
  ⟨rfl, claim_C7_version_threshold.1 "10.0.26100" 0 rfl⟩

/-- C4 counterexample: a successful structured query with zero matching
records makes `GetSingleWMIObject` return a **nil** error (with the
zero-value record), not an error as claimed, and the caller then stores a
**non-empty** hash for the category instead of proceeding without it. -/
theorem claim_C4_counterexample :
    (GetSingleWMIObject cspZero
        (.ok ([] : List Win32_ComputerSystemProduct))).2 = none ∧
    (getWMIObject gobEncodeCSP cspZero
        (.ok ([] : List Win32_ComputerSystemProduct))).1 ≠ "" :=
  ⟨rfl, digestEncode_ne_empty (gobEncodeCSP cspZero)⟩

/-- C4 amended: `GetSingleWMIObject` returns the zero-value record together
with whatever error the query produced — the query's error on failure, but a
nil error on a successful query with zero records (the first record and a
nil error otherwise) — and in the zero-record case the caller hashes the
zero-value record rather than skipping the category. -/
theorem claim_C4_zero_records_amended :
    (∀ e : GoErr, GetSingleWMIObject cspZero
        (.error e : Except GoErr (List Win32_ComputerSystemProduct)) =
        (cspZero, some e)) ∧
    GetSingleWMIObject cspZero (.ok ([] : List Win32_ComputerSystemProduct)) =
      (cspZero, none) ∧
    (∀ (x : Win32_ComputerSystemProduct) (xs : List Win32_ComputerSystemProduct),
      GetSingleWMIObject cspZero (.ok (x :: xs)) = (x, none)) ∧
    (getWMIObject gobEncodeCSP cspZero
        (.ok ([] : List Win32_ComputerSystemProduct))).1 =
      digestEncode (gobEncodeCSP cspZero) :=
  ⟨fun _ => rfl, rfl, fun _ _ => rfl, rfl⟩

/-- Witness for the amended C4: concrete instances of the error case and of
the zero-record case. -/
theorem claim_C4_amended_witness :
    GetSingleWMIObject cspZero
        (.error "query failed" : Except GoErr (List Win32_ComputerSystemProduct)) =
      (cspZero, some "query failed") :=
  claim_C4_zero_records_amended.1 "query failed"

/-- C10: for each of the six categories, a structured query that succeeds
with zero records makes `getWMIObject` return a nil error together with the
non-empty base64-encoded MD5 digest of the gob-serialized zero-value
record — not the empty-string failure sentinel. -/
theorem claim_C10_zero_records_hashed :
    (getWMIObject gobEncodeCSP cspZero (.ok []) =
        (digestEncode (gobEncodeCSP cspZero), cspZero, none) ∧
      digestEncode (gobEncodeCSP cspZero) ≠ "") ∧
    (getWMIObject gobEncodeProcessor processorZero (.ok []) =
        (digestEncode (gobEncodeProcessor processorZero), processorZero, none) ∧
      digestEncode (gobEncodeProcessor processorZero) ≠ "") ∧
    (getWMIObject gobEncodeMemory memoryZero (.ok []) =
        (digestEncode (gobEncodeMemory memoryZero), memoryZero, none) ∧
      digestEncode (gobEncodeMemory memoryZero) ≠ "") ∧
    (getWMIObject gobEncodeBIOS biosZero (.ok []) =
        (digestEncode (gobEncodeBIOS biosZero), biosZero, none) ∧
      digestEncode (gobEncodeBIOS biosZero) ≠ "") ∧
    (getWMIObject gobEncodeCS csZero (.ok []) =
        (digestEncode (gobEncodeCS csZero), csZero, none) ∧
      digestEncode (gobEncodeCS csZero) ≠ "") ∧
    (getWMIObject gobEncodeDisk diskZero (.ok []) =
        (digestEncode (gobEncodeDisk diskZero), diskZero, none) ∧
      digestEncode (gobEncodeDisk diskZero) ≠ "") :=
  ⟨⟨rfl, digestEncode_ne_empty _⟩, ⟨rfl, digestEncode_ne_empty _⟩,
   ⟨rfl, digestEncode_ne_empty _⟩, ⟨rfl, digestEncode_ne_empty _⟩,
   ⟨rfl, digestEncode_ne_empty _⟩, ⟨rfl, digestEncode_ne_empty _⟩⟩

/-- C9: the structured-query backend's hashing is deterministic — two
records with bit-identical field values always produce the same printable
digest through the serialize-digest-encode pipeline. -/
theorem claim_C9_deterministic_hash :
    ∀ (p q : Win32_Processor), p.Caption = q.Caption → p.DeviceID = q.DeviceID →
      p.Manufacturer = q.Manufacturer → p.MaxClockSpeed = q.MaxClockSpeed →
      p.Name = q.Name → p.SocketDesignation = q.SocketDesignation →
      (getWMIObject gobEncodeProcessor processorZero (.ok [p])).1 =
        (getWMIObject gobEncodeProcessor processorZero (.ok [q])).1 := by
  intro p q h1 h2 h3 h4 h5 h6
  have hpq : p = q := by
    cases p
    cases q
    dsimp only at h1 h2 h3 h4 h5 h6
    subst h1 h2 h3 h4 h5 h6
    rfl
  rw [hpq]

/-- A sample processor record used by witnesses. -/
def procSample : Win32_Processor :=
  ⟨"Intel64 Family 6", "CPU0", "GenuineIntel", 2400,
   "Intel Xeon", "CPU 0"⟩

/-- Witness for C9: hashing the same concrete record through the pipeline a
second time yields the identical digest. -/
theorem claim_C9_witness :
    (getWMIObject gobEncodeProcessor processorZero (.ok [procSample])).1 =
      (getWMIObject gobEncodeProcessor processorZero (.ok [procSample])).1 :=
  claim_C9_deterministic_hash procSample procSample rfl rfl rfl rfl rfl rfl

/-- The spec's backend-equivalence claim, stated in the spec's own terms at
the UUID category: an underlying attribute value (here the UUID string) fed
through the command-output backend as identically formatted text, and
through the structured-query backend as the record holding that value,
yields matching encoded digests.  This definition follows the spec's words;
it is compared against the embedded source functions. -/
def claimedBackendEquivalenceUuid : Prop :=
  ∀ s : String,
    (commandOutputHash (.ok (strBytes s))).1 =
      (getWMIObject gobEncodeCSP cspZero (.ok [⟨s⟩])).1

set_option maxRecDepth 8000 in
/-- C1 counterexample: the two backends are not digest-equivalent.  For the
concrete UUID string "4C4C4544-0042", the command-output backend hashes the
raw text bytes while the structured-query backend hashes the gob-serialized
record, and the encoded digests differ. -/
theorem claim_C1_counterexample : ¬ claimedBackendEquivalenceUuid := by
  intro h
  exact absurd (h "4C4C4544-0042") (by decide)

/-- C1 amended: both backends apply the same digest-and-encode pipeline
(MD5 then base64) to their input bytes, but to different serializations —
the command backend to the raw captured text, the structured backend to the
gob encoding of the record — so the encoded digests coincide exactly on
inputs whose serialized byte sequences coincide, not for identically
formatted attribute values. -/
theorem claim_C1_pipeline_shared (b : List Nat) (r : Win32_ComputerSystemProduct) :
    (commandOutputHash (.ok b)).1 = digestEncode b ∧
    (getWMIObject gobEncodeCSP cspZero (.ok [r])).1 =
      digestEncode (gobEncodeCSP r) ∧
    (b = gobEncodeCSP r →
      (commandOutputHash (.ok b)).1 =
        (getWMIObject gobEncodeCSP cspZero (.ok [r])).1) := by
  refine ⟨rfl, rfl, ?_⟩
  intro hb
  rw [hb]
  rfl

/-- Witness for the amended C1: when the command's raw output happens to be
exactly the gob serialization of the record, the digests agree. -/
theorem claim_C1_witness :
    gobEncodeCSP ⟨"4C4C4544-0042"⟩ = gobEncodeCSP ⟨"4C4C4544-0042"⟩ ∧
      (commandOutputHash (.ok (gobEncodeCSP ⟨"4C4C4544-0042"⟩))).1 =
        (getWMIObject gobEncodeCSP cspZero (.ok [⟨"4C4C4544-0042"⟩])).1 :=
  ⟨rfl, (claim_C1_pipeline_shared (gobEncodeCSP ⟨"4C4C4544-0042"⟩)
    ⟨"4C4C4544-0042"⟩).2.2 rfl⟩

/-- A successful non-empty host-identity lookup contributes a non-empty
value. -/
theorem hostnameInfo_ne_empty (r : Except GoErr String)
    (h : okNonempty r = true) : (hostnameInfo r).1 ≠ "" := by
  cases r with
  | error e => simp [okNonempty] at h
  | ok s =>
    simp [okNonempty] at h
    simpa [hostnameInfo] using h

/-- As `hostnameInfo_ne_empty`, for the primary-IP lookup. -/
theorem primaryIpInfo_ne_empty (r : Except GoErr String)
    (h : okNonempty r = true) : (primaryIpInfo r).1 ≠ "" := by
  cases r with
  | error e => simp [okNonempty] at h
  | ok s =>
    simp [okNonempty] at h
    simpa [primaryIpInfo] using h

/-- As `hostnameInfo_ne_empty`, for the MAC-address lookup. -/
theorem macAddrInfo_ne_empty (r : Except GoErr String)
    (h : okNonempty r = true) : (macAddrInfo r).1 ≠ "" := by
  cases r with
  | error e => simp [okNonempty] at h
  | ok s =>
    simp [okNonempty] at h
    simpa [macAddrInfo] using h

/-- Under a successful readiness gate, the map is the nine-entry list in
assignment order, with each hardware value given by the active interface's
category function. -/
theorem currentHwHash_map_eq (c : Collaborators) (h1 : c.connect = .ok ())
    (h2 : c.openSvc = .ok ()) (h3 : (waitForService c.svcQuery).result = .ok ()) :
    (currentHwHash c).map =
      [(hardwareID, catValue c (getWMIInterface c.platformVersion) .uuid),
       ("processor-hash", catValue c (getWMIInterface c.platformVersion) .processor),
       ("memory-hash", catValue c (getWMIInterface c.platformVersion) .memory),
       ("bios-hash", catValue c (getWMIInterface c.platformVersion) .bios),
       ("system-hash", catValue c (getWMIInterface c.platformVersion) .system),
       ("hostname-info", (hostnameInfo c.hostname).1),
       (ipAddressID, (primaryIpInfo c.primaryIp).1),
       ("macaddr-info", (macAddrInfo c.macAddr).1),
       ("disk-info", catValue c (getWMIInterface c.platformVersion) .disk)] := by
  simp [currentHwHash, h1, h2, h3, catValue]

/-- Under a successful readiness gate, all six category queries and all
three host-identity lookups are performed. -/
theorem currentHwHash_trace_eq (c : Collaborators) (h1 : c.connect = .ok ())
    (h2 : c.openSvc = .ok ()) (h3 : (waitForService c.svcQuery).result = .ok ()) :
    (currentHwHash c).trace =
      [.catQuery .uuid, .catQuery .processor, .catQuery .memory,
       .catQuery .bios, .catQuery .system, .hostnameLookup, .ipLookup,
       .macLookup, .catQuery .disk] := by
  simp [currentHwHash, h1, h2, h3]

/-- C8: in any run that reaches the collection phase, when exactly one
category's active-backend query fails (the others succeed, and the
host-identity lookups succeed with non-empty values), the returned map holds
the empty string at exactly that category's key, every other key holding a
non-empty value; and all six category queries are still performed regardless
of the failure. -/
theorem claim_C8_partial_failure_isolation (c : Collaborators) (cat : HwCategory)
    (hr : readinessOk c)
    (hfail : catQueryFailed c (getWMIInterface c.platformVersion) cat = true)
    (hok : ∀ cat', cat' ≠ cat →
      catQueryFailed c (getWMIInterface c.platformVersion) cat' = false)
    (hhost : okNonempty c.hostname = true ∧ okNonempty c.primaryIp = true ∧
      okNonempty c.macAddr = true) :
    (∀ k, k ∈ nineKeys →
      (mapGet (currentHwHash c).map k = some "" ↔ k = catKey cat)) ∧
    (∀ cat' : HwCategory, TraceEntry.catQuery cat' ∈ (currentHwHash c).trace) := by
  obtain ⟨h1, h2, h3⟩ := hr
  obtain ⟨hh, hi, hm⟩ := hhost
  have hmap := currentHwHash_map_eq c h1 h2 h3
  have htrace := currentHwHash_trace_eq c h1 h2 h3
  have hhn := hostnameInfo_ne_empty c.hostname hh
  have hin := primaryIpInfo_ne_empty c.primaryIp hi
  have hmn := macAddrInfo_ne_empty c.macAddr hm
  constructor
  · intro k hk
    rw [hmap]
    simp only [nineKeys, List.mem_cons, List.not_mem_nil, or_false] at hk
    cases cat with
    | uuid =>
      have fP := hok .processor (by decide)
      have fM := hok .memory (by decide)
      have fB := hok .bios (by decide)
      have fS := hok .system (by decide)
      have fD := hok .disk (by decide)
      rcases hk with rfl | rfl | rfl | rfl | rfl | rfl | rfl | rfl | rfl <;>
        simp [mapGet, hardwareID, ipAddressID, catKey, catValue_empty_iff,
          hfail, fP, fM, fB, fS, fD, hhn, hin, hmn]
    | processor =>
      have fU := hok .uuid (by decide)
      have fM := hok .memory (by decide)
      have fB := hok .bios (by decide)
      have fS := hok .system (by decide)
      have fD := hok .disk (by decide)
      rcases hk with rfl | rfl | rfl | rfl | rfl | rfl | rfl | rfl | rfl <;>
        simp [mapGet, hardwareID, ipAddressID, catKey, catValue_empty_iff,
          hfail, fU, fM, fB, fS, fD, hhn, hin, hmn]
    | memory =>
      have fU := hok .uuid (by decide)
      have fP := hok .processor (by decide)
      have fB := hok .bios (by decide)
      have fS := hok .system (by decide)
      have fD := hok .disk (by decide)
      rcases hk with rfl | rfl | rfl | rfl | rfl | rfl | rfl | rfl | rfl <;>
        simp [mapGet, hardwareID, ipAddressID, catKey, catValue_empty_iff,
          hfail, fU, fP, fB, fS, fD, hhn, hin, hmn]
    | bios =>
      have fU := hok .uuid (by decide)
      have fP := hok .processor (by decide)
      have fM := hok .memory (by decide)
      have fS := hok .system (by decide)
      have fD := hok .disk (by decide)
      rcases hk with rfl | rfl | rfl | rfl | rfl | rfl | rfl | rfl | rfl <;>
        simp [mapGet, hardwareID, ipAddressID, catKey, catValue_empty_iff,
          hfail, fU, fP, fM, fS, fD, hhn, hin, hmn]
    | system =>
      have fU := hok .uuid (by decide)
      have fP := hok .processor (by decide)
      have fM := hok .memory (by decide)
      have fB := hok .bios (by decide)
      have fD := hok .disk (by decide)
      rcases hk with rfl | rfl | rfl | rfl | rfl | rfl | rfl | rfl | rfl <;>
        simp [mapGet, hardwareID, ipAddressID, catKey, catValue_empty_iff,
          hfail, fU, fP, fM, fB, fD, hhn, hin, hmn]
    | disk =>
      have fU := hok .uuid (by decide)
      have fP := hok .processor (by decide)
      have fM := hok .memory (by decide)
      have fB := hok .bios (by decide)
      have fS := hok .system (by decide)
      rcases hk with rfl | rfl | rfl | rfl | rfl | rfl | rfl | rfl | rfl <;>
        simp [mapGet, hardwareID, ipAddressID, catKey, catValue_empty_iff,
          hfail, fU, fP, fM, fB, fS, hhn, hin, hmn]
  · intro cat'
    rw [htrace]
    cases cat' <;> simp

/-- A collaborator assignment on a Windows Server 2025 platform (WQL
backend) in which only the processor query fails while every other category
query and host-identity lookup succeeds. -/
def cProcFail : Collaborators :=
  ⟨.ok (), .ok (), fun _ => .ok ⟨.running⟩, .ok "10.0.26100",
   .ok [85], .ok [86], .ok [87], .ok [88], .ok [89], .ok [90],
   .ok [⟨"4C4C4544-0042"⟩], .error "processor query failed",
   .ok [⟨17179869184, "DIMM 0", 26, "Physical Memory", "Tag 0", 64⟩],
   .ok [⟨"Xen", "revision 4.11", "ec2abc", "4.11.amazon", "4.11.amazon"⟩],
   .ok [⟨"host1", "example.com", "Xen", "HVM domU", "HOST1", "EC2", 17179869184⟩],
   .ok [⟨"disk0", "\\\\.\\PHYSICALDRIVE0", "AWS PVDISK", 1, 107374182400⟩],
   .ok "host1", .ok "10.0.0.5", .ok "aa:bb:cc:dd:ee:ff"⟩

/-- Witness for C8: with only the processor query failing, the map is empty
exactly at `processor-hash` and all six categories were queried. -/
theorem claim_C8_witness :
    readinessOk cProcFail ∧
      catQueryFailed cProcFail (getWMIInterface cProcFail.platformVersion)
        .processor = true ∧
      (∀ cat', cat' ≠ HwCategory.processor →
        catQueryFailed cProcFail (getWMIInterface cProcFail.platformVersion)
          cat' = false) ∧
      ((∀ k, k ∈ nineKeys →
        (mapGet (currentHwHash cProcFail).map k = some "" ↔
          k = catKey .processor)) ∧
       (∀ cat' : HwCategory,
         TraceEntry.catQuery cat' ∈ (currentHwHash cProcFail).trace)) :=
  ⟨⟨rfl, rfl, rfl⟩, rfl,
   fun cat' h => by cases cat' <;> first | rfl | exact absurd rfl h,
   claim_C8_partial_failure_isolation cProcFail .processor ⟨rfl, rfl, rfl⟩ rfl
     (fun cat' h => by cases cat' <;> first | rfl | exact absurd rfl h)
     ⟨rfl, rfl, rfl⟩⟩
